import Mathlib

/-!
Shallow embedding of the `zeebe-client-node-js` sources:

* `src/lib/ConnectionFactory.ts` — the connection classifier
  (`ConnectionFactory.getCharacteristics`, `ConnectionCharacteristics`).
* `ZBClient.ts` (provided unnamed) — the client façade: constructor,
  `createWorker` / `close`, `deployWorkflow`, `createWorkflowInstance`,
  `setVariables`, `getWorkflow` / `hasBpmnProcessId`.

JavaScript-specific behaviour (truthiness of `||`, `typeof x === 'object'`,
`JSON.stringify`, in-place object mutation) is modelled explicitly.
-/

namespace ZeebeNode

/-- A JavaScript runtime value, as far as the client code inspects one:
`typeof` discrimination and `JSON.stringify` serialization. -/
inductive JsValue where
  | vundefined
  | vnull
  | vbool (b : Bool)
  | vnum (n : Int)
  | vstr (s : String)
  | varr (elems : List JsValue)
  | vobj (fields : List (String × JsValue))
deriving Repr

/-- JS `typeof v === 'object'`: true for plain objects, arrays and `null`;
false for strings, numbers, booleans and `undefined`. -/
def jsTypeofObject : JsValue → Bool
  | .vnull => true
  | .varr _ => true
  | .vobj _ => true
  | _ => false

/-- whether a value is the JS `undefined` (omitted by `JSON.stringify`
inside objects). -/
def jsIsUndefined : JsValue → Bool
  | .vundefined => true
  | _ => false

/-- hexadecimal digit, for `\u00XX` escapes. -/
def hexDigit (n : Nat) : Char :=
  if n < 10 then Char.ofNat (48 + n) else Char.ofNat (87 + n)

/-- JSON string escaping as performed by `JSON.stringify`. -/
def escapeJsonChar (c : Char) : String :=
  if c = '"' then "\\\""
  else if c = '\\' then "\\\\"
  else if c = '\n' then "\\n"
  else if c = '\r' then "\\r"
  else if c = '\t' then "\\t"
  else if c = Char.ofNat 8 then "\\b"
  else if c = Char.ofNat 12 then "\\f"
  else if c.toNat < 32 then
    "\\u00" ++ String.singleton (hexDigit (c.toNat / 16))
      ++ String.singleton (hexDigit (c.toNat % 16))
  else String.singleton c

/-- JSON escaping of a whole string (without the surrounding quotes). -/
def escapeJsonString (s : String) : String :=
  String.join (s.data.map escapeJsonChar)

mutual

/-- `JSON.stringify`, modelled for the value forms of `JsValue`.
(`undefined` serializes as `null` in the positions where this model
invokes it on one, i.e. inside arrays.) -/
def jsonStringify : JsValue → String
  | .vundefined => "null"
  | .vnull => "null"
  | .vbool true => "true"
  | .vbool false => "false"
  | .vnum n => toString n
  | .vstr s => "\"" ++ escapeJsonString s ++ "\""
  | .varr xs => "[" ++ String.intercalate "," (jsonStringifyList xs) ++ "]"
  | .vobj fields =>
      "\x7b" ++ String.intercalate "," (jsonStringifyFields fields) ++ "\x7d"

/-- serialization of array elements, in order. -/
def jsonStringifyList : List JsValue → List String
  | [] => []
  | x :: xs => jsonStringify x :: jsonStringifyList xs

/-- serialization of object entries; entries whose value is `undefined`
are omitted, as `JSON.stringify` does. -/
def jsonStringifyFields : List (String × JsValue) → List String
  | [] => []
  | (k, v) :: rest =>
      if jsIsUndefined v then jsonStringifyFields rest
      else ("\"" ++ escapeJsonString k ++ "\":" ++ jsonStringify v)
        :: jsonStringifyFields rest

end

/-- JS `haystack.includes(needle)`: substring containment. -/
def strIncludes (haystack needle : String) : Bool :=
  (List.range (haystack.data.length + 1)).any
    (fun i => needle.data.isPrefixOf (haystack.data.drop i))

/-! ### ConnectionFactory.ts -/

/-- the two connection profiles of `ConnectionFactory.ts`
(the spec calls them CLOUD and SELF_MANAGED). -/
inductive GrpcConnectionProfile where
  | CAMUNDA_CLOUD
  | VANILLA
deriving Repr, DecidableEq

/-- `Characteristics` of `ConnectionFactory.ts` (the spec's
`startupGrace` is the source's `startupTime`). -/
structure Characteristics where
  startupTime : Nat
  _tag : GrpcConnectionProfile
deriving Repr, DecidableEq

/-- the `ConnectionCharacteristics` record of `ConnectionFactory.ts`,
as a function from profile to characteristics. -/
def ConnectionCharacteristics : GrpcConnectionProfile → Characteristics
  | .CAMUNDA_CLOUD => { _tag := .CAMUNDA_CLOUD, startupTime := 5000 }
  | .VANILLA => { _tag := .VANILLA, startupTime := 0 }

/-- `ConnectionFactory.getCharacteristics`: classify a host string by
whether it contains the managed-cloud domain substring. -/
def getCharacteristics (host : String) : Characteristics :=
  let isCamundaCloud := strIncludes host "zeebe.camunda.io"
  let profile : GrpcConnectionProfile :=
    if isCamundaCloud then .CAMUNDA_CLOUD else .VANILLA
  ConnectionCharacteristics profile

/-! ### ZBClient constructor -/

/-- JS `a || b` on a string-valued expression that may be `undefined`:
`undefined` and the empty string are falsy and fall through to `b`. -/
def jsStrOr (a : Option String) (b : String) : String :=
  match a with
  | none => b
  | some s => if s = "" then b else s

/-- JS `a || b` on a number-valued expression that may be `undefined`:
`undefined` and `0` are falsy and fall through to `b`. -/
def jsNumOr (a : Option Int) (b : Int) : Int :=
  match a with
  | none => b
  | some n => if n = 0 then b else n

/-- log-level resolution performed by the `ZBClient` constructor:
`(process.env.ZB_NODE_LOG_LEVEL) || options.loglevel || 'INFO'`. -/
def resolveLoglevel (env : Option String) (optionsLoglevel : Option String) : String :=
  jsStrOr env (jsStrOr optionsLoglevel "INFO")

/-- broker-address normalization performed by the `ZBClient` constructor:
append `:26500` exactly when `brokerAddress.indexOf(':') === -1`. -/
def normalizeBrokerAddress (brokerAddress : String) : String :=
  if brokerAddress.data.contains ':' then brokerAddress
  else brokerAddress ++ ":26500"

/-- the constructor-determined fields of a `ZBClient`. -/
structure ZBClientCtorResult where
  brokerAddress : String
  loglevel : String
deriving Repr, DecidableEq

/-- the `ZBClient` constructor: reject a falsy broker address, resolve the
log level, normalize the address. `env` is `process.env.ZB_NODE_LOG_LEVEL`. -/
def ZBClient.construct (env : Option String) (brokerAddress : String)
    (optLoglevel : Option String) : Except String ZBClientCtorResult :=
  if brokerAddress = "" then
    .error "Must provide a broker address string to constructor"
  else
    .ok { brokerAddress := normalizeBrokerAddress brokerAddress
          loglevel := resolveLoglevel env optLoglevel }

/-! ### createWorker / close -/

/-- a created worker, reduced to the arguments `ZBClient.createWorker`
passes on that identify it. -/
structure ZBWorker where
  id : String
  taskType : String
deriving Repr, DecidableEq

/-- the mutable fields of a `ZBClient` that `close` and `createWorker`
read or write. -/
structure ClientState where
  closing : Bool
  closePromiseSet : Bool
  workers : List ZBWorker
  workerCount : Nat
deriving Repr, DecidableEq

/-- client state as built by the constructor. -/
def ClientState.initial : ClientState :=
  { closing := false, closePromiseSet := false, workers := [], workerCount := 0 }

/-- the error thrown synchronously by `createWorker` on a closing client
(the spec's ConstructionError taxonomy entry). -/
inductive ConstructionError where
  | clientClosing (message : String)
deriving Repr, DecidableEq

/-- `ZBClient.close`: if the close promise already exists, return it and
change nothing; otherwise set `closing` and record the promise. -/
def ZBClient.close (s : ClientState) : ClientState :=
  if s.closePromiseSet then s
  else { s with closing := true, closePromiseSet := true }

/-- `ZBClient.createWorker`: throw if the client is closing, otherwise
bump the worker counter and push the new worker. -/
def ZBClient.createWorker (s : ClientState) (id taskType : String) :
    Except ConstructionError (ClientState × ZBWorker) :=
  if s.closing then
    .error (.clientClosing "Client is closing. No worker creation allowed!")
  else
    let worker : ZBWorker := { id := id, taskType := taskType }
    .ok ({ s with workerCount := s.workerCount + 1
                  workers := s.workers ++ [worker] }, worker)

/-- the client state after a `createWorker` call: unchanged when the call
throws (the throw happens before any mutation in the source). -/
def ZBClient.createWorkerState (s : ClientState) (id taskType : String) : ClientState :=
  match ZBClient.createWorker s id taskType with
  | .ok (s2, _) => s2
  | .error _ => s

/-- invariant of every reachable client state: once the close promise is
recorded, `closing` is set. -/
def ClientState.closeInv (s : ClientState) : Prop :=
  s.closePromiseSet = true → s.closing = true

/-! ### deployWorkflow -/

/-- one entry of the `listWorkflows` broker response. -/
structure WorkflowMetadata where
  bpmnProcessId : String
  version : Int
  workflowKey : Int
deriving Repr, DecidableEq

/-- the `listWorkflows` broker response. -/
structure ListWorkflowResponse where
  workflows : List WorkflowMetadata
deriving Repr, DecidableEq

/-- `ZB.WorkflowRequestObject`: one file to deploy (`definition` holds the
file bytes as text, `name` the path's basename, `type` the constant 1). -/
structure WorkflowRequestObject where
  definition : String
  name : String
  type : Nat
deriving Repr, DecidableEq

/-- the `deployWorkflow` broker response (the spec names the list field
`processes`; the source names it `workflows`). -/
structure DeployWorkflowResponse where
  key : Int
  workflows : List WorkflowMetadata
deriving Repr, DecidableEq

/-- a remote call issued through the gRPC client during `deployWorkflow`. -/
inductive RemoteCall where
  | listWorkflows
  | deployWorkflows (requests : List WorkflowRequestObject)
deriving Repr, DecidableEq

/-- the collaborators `deployWorkflow` consults: the file system
(`fs.readFileSync`), the process-definition collaborator
(`BpmnParser.getProcessId`), and the broker's responses to the two
remote calls it can make. -/
structure DeployEnv where
  readFile : String → String
  getProcessId : String → String
  listWorkflowsResponse : ListWorkflowResponse
  deployResponse : DeployWorkflowResponse

/-- `path.basename`: the final component of a slash-separated path. -/
def pathBasename (p : String) : String :=
  (p.splitOn "/").getLastD p

/-- the `workflow` argument of `deployWorkflow`: a single path or an
array of paths (`Array.isArray` discrimination). -/
def workflowArgToList : Sum String (List String) → List String
  | .inl w => [w]
  | .inr ws => ws

/-- `ZBClient.deployWorkflow`, returning the response together with the
trace of remote calls issued, in order. With `redeploy = false` it first
fetches the deployed process ids via `listWorkflows`, builds the request
objects, filters out files whose derived process id is already deployed,
and only calls the remote deploy when the filtered list is non-empty;
otherwise it returns the sentinel `\x7bkey: -1, workflows: []\x7d`. -/
def ZBClient.deployWorkflow (env : DeployEnv) (workflow : Sum String (List String))
    (redeploy : Bool) : DeployWorkflowResponse × List RemoteCall :=
  let workflows := workflowArgToList workflow
  let fetched : List String × List RemoteCall :=
    if !redeploy then
      (env.listWorkflowsResponse.workflows.map (fun wf => wf.bpmnProcessId),
        [RemoteCall.listWorkflows])
    else ([], [])
  let deployedWorkflows := fetched.1
  let workFlowRequests : List WorkflowRequestObject :=
    (workflows.map (fun wf =>
      { definition := env.readFile wf
        name := pathBasename wf
        type := 1 })).filter
      (fun wfr => !(deployedWorkflows.contains (env.getProcessId wfr.definition)))
  if workFlowRequests.length > 0 then
    (env.deployResponse, fetched.2 ++ [RemoteCall.deployWorkflows workFlowRequests])
  else
    ({ key := -1, workflows := [] }, fetched.2)

/-! ### setVariables / getWorkflow / createWorkflowInstance -/

/-- `ZB.SetVariablesRequest` (the source's third field is named `local`,
a Lean keyword, rendered here as `localScope`). -/
structure SetVariablesRequest where
  elementInstanceKey : String
  «variables» : JsValue
  localScope : Bool
deriving Repr

/-- `ZBClient.setVariables`: stringify the `variables` field when
`typeof request.variables === 'object'`, then transmit the request. The
returned value is the request object as transmitted. -/
def ZBClient.setVariables (request : SetVariablesRequest) : SetVariablesRequest :=
  if jsTypeofObject request.variables then
    { request with «variables» := .vstr (jsonStringify request.variables) }
  else request

/-- `ZB.GetWorkflowRequest`: either a key-based or a process-id-based
lookup, discriminated in the source by field presence. -/
structure GetWorkflowRequest where
  bpmnProcessId : Option String
  workflowKey : Option String
  version : Option Int
deriving Repr, DecidableEq

/-- `ZBClient.hasBpmnProcessId`: duck-typed check
`request.bpmnProcessId !== undefined`. -/
def ZBClient.hasBpmnProcessId (request : GetWorkflowRequest) : Bool :=
  request.bpmnProcessId.isSome

/-- `ZBClient.getWorkflow`: when the request carries a `bpmnProcessId`,
default the version by `request.version = request.version || -1`; then
transmit. The returned value is the request object as transmitted. -/
def ZBClient.getWorkflow (request : GetWorkflowRequest) : GetWorkflowRequest :=
  if ZBClient.hasBpmnProcessId request then
    { request with version := some (jsNumOr request.version (-1)) }
  else request

/-- `ZB.CreateWorkflowInstanceRequest` as built by
`createWorkflowInstance`. -/
structure CreateWorkflowInstanceRequest where
  bpmnProcessId : String
  «variables» : JsValue
  version : Int
deriving Repr

/-- Modelled from the spec: `stringifyVariables` (imported from
`../lib`, not among the provided sources) serializes a structured
`variables` payload to a JSON text document before transmission and
leaves every other request field unchanged. -/
def stringifyVariablesCWI (r : CreateWorkflowInstanceRequest) : CreateWorkflowInstanceRequest :=
  if jsTypeofObject r.variables then
    { r with «variables» := .vstr (jsonStringify r.variables) }
  else r

/-- `ZBClient.createWorkflowInstance`: default the version by
`version = version || -1`, build the request, and transmit it through
`stringifyVariables`. The returned value is the transmitted request. -/
def ZBClient.createWorkflowInstance (bpmnProcessId : String) («variables» : JsValue)
    (version : Option Int) : CreateWorkflowInstanceRequest :=
  let version2 := jsNumOr version (-1)
  stringifyVariablesCWI
    { bpmnProcessId := bpmnProcessId, «variables» := «variables», version := version2 }

/-! ### heap model for in-place mutation (setVariables / getWorkflow)

In the source, `setVariables` and `getWorkflow` assign to fields of the
caller-supplied request object. We model object identity with an
explicit store from references to objects: the operation updates the
store at the reference it was handed, so the caller reading back through
the same reference observes the mutation. -/

/-- a store of request objects, addressed by reference. -/
def Heap (α : Type) : Type := Nat → α

/-- point update of a store. -/
def heapUpdate {α : Type} (h : Heap α) (r : Nat) (v : α) : Heap α :=
  fun r2 => if r2 = r then v else h r2

/-- `setVariables` acting on the store: the object behind the caller's
reference is mutated in place. -/
def setVariablesOnHeap (h : Heap SetVariablesRequest) (r : Nat) : Heap SetVariablesRequest :=
  heapUpdate h r (ZBClient.setVariables (h r))

/-- `getWorkflow` acting on the store: the object behind the caller's
reference is mutated in place. -/
def getWorkflowOnHeap (h : Heap GetWorkflowRequest) (r : Nat) : Heap GetWorkflowRequest :=
  heapUpdate h r (ZBClient.getWorkflow (h r))

/-! ## Theorems -/

/-- C1: the connection classifier is a pure function of the address: any
address containing the managed-cloud domain substring is classified
CAMUNDA_CLOUD (the spec's CLOUD) with startup grace 5000 ms, and every
other address VANILLA (the spec's SELF_MANAGED) with startup grace 0. -/
theorem C1_classifier_pure (host : String) :
    (strIncludes host "zeebe.camunda.io" = true →
      getCharacteristics host = { _tag := .CAMUNDA_CLOUD, startupTime := 5000 }) ∧
    (strIncludes host "zeebe.camunda.io" = false →
      getCharacteristics host = { _tag := .VANILLA, startupTime := 0 }) := by
  constructor <;> intro h <;>
    simp [getCharacteristics, h, ConnectionCharacteristics]

/-- witness for C1 at the spec's two example addresses. -/
theorem C1_classifier_pure_witness :
    getCharacteristics "x.zeebe.camunda.io:443" =
      { _tag := .CAMUNDA_CLOUD, startupTime := 5000 } ∧
    getCharacteristics "localhost" = { _tag := .VANILLA, startupTime := 0 } :=
  ⟨(C1_classifier_pure "x.zeebe.camunda.io:443").1 (by decide),
   (C1_classifier_pure "localhost").2 (by decide)⟩

/-- helper: with `redeploy = false` and every file's derived process id
already among the listed deployed ids, `deployWorkflow` returns the
sentinel response and its remote-call trace is exactly the one
`listWorkflows` call. -/
theorem deployWorkflow_all_deployed (env : DeployEnv)
    (workflow : Sum String (List String))
    (h : ∀ wf ∈ workflowArgToList workflow,
      (env.listWorkflowsResponse.workflows.map (fun m => m.bpmnProcessId)).contains
        (env.getProcessId (env.readFile wf)) = true) :
    ZBClient.deployWorkflow env workflow false =
      ({ key := -1, workflows := [] }, [RemoteCall.listWorkflows]) := by
  unfold ZBClient.deployWorkflow
  have hfilter :
      (((workflowArgToList workflow).map (fun wf =>
        ({ definition := env.readFile wf, name := pathBasename wf, type := 1 } :
          WorkflowRequestObject))).filter
        (fun wfr =>
          !((env.listWorkflowsResponse.workflows.map
              (fun wf => wf.bpmnProcessId)).contains
            (env.getProcessId wfr.definition)))) = [] := by
    rw [List.filter_eq_nil_iff]
    intro a ha
    rw [List.mem_map] at ha
    obtain ⟨wf, hwf, rfl⟩ := ha
    simpa using h wf hwf
  simp only [Bool.not_false, if_pos rfl, reduceIte] at *
  rw [hfilter]
  simp

/-- C2: with `redeploy = false`, `deployWorkflow` first lists the
already-deployed process ids and filters out every file whose derived id
is present; when every file is filtered out it returns the sentinel
response (key -1, empty list) and issues no remote deploy call. -/
theorem C2_deploy_skip_sentinel (env : DeployEnv)
    (workflow : Sum String (List String))
    (h : ∀ wf ∈ workflowArgToList workflow,
      (env.listWorkflowsResponse.workflows.map (fun m => m.bpmnProcessId)).contains
        (env.getProcessId (env.readFile wf)) = true) :
    (ZBClient.deployWorkflow env workflow false).1 =
      { key := -1, workflows := [] } ∧
    ∀ reqs, RemoteCall.deployWorkflows reqs ∉
      (ZBClient.deployWorkflow env workflow false).2 := by
  rw [deployWorkflow_all_deployed env workflow h]
  exact ⟨rfl, by intro reqs hmem; simp at hmem⟩

/-- witness for C2: one file whose derived id is already deployed. -/
theorem C2_deploy_skip_sentinel_witness :
    (ZBClient.deployWorkflow
      { readFile := fun _ => "bpmn-a"
        getProcessId := fun _ => "proc-a"
        listWorkflowsResponse :=
          { workflows := [{ bpmnProcessId := "proc-a", version := 1, workflowKey := 11 }] }
        deployResponse := { key := 7, workflows := [] } }
      (.inl "a.bpmn") false).1 = { key := -1, workflows := [] } :=
  (C2_deploy_skip_sentinel _ (.inl "a.bpmn") (by decide)).1

/-- a concrete deploy environment in which the single file's process id
is already deployed. -/
def exDeployEnv : DeployEnv :=
  { readFile := fun _ => "bpmn-doc"
    getProcessId := fun _ => "order-process"
    listWorkflowsResponse :=
      { workflows :=
        [{ bpmnProcessId := "order-process", version := 1, workflowKey := 42 }] }
    deployResponse := { key := 9, workflows := [] } }

/-- C3 counterexample: at a concrete input where every derived process id
is already deployed, `deployWorkflow(paths, redeploy := false)` returns
the sentinel but its remote-call trace is NOT empty — it contains the
`listWorkflows` call made to fetch the deployed ids. -/
theorem C3_zero_calls_counterexample :
    (ZBClient.deployWorkflow exDeployEnv (.inl "order.bpmn") false).1 =
      { key := -1, workflows := [] } ∧
    (ZBClient.deployWorkflow exDeployEnv (.inl "order.bpmn") false).2 =
      [RemoteCall.listWorkflows] ∧
    (ZBClient.deployWorkflow exDeployEnv (.inl "order.bpmn") false).2 ≠ [] := by
  refine ⟨rfl, rfl, ?_⟩
  intro hc
  rw [show (ZBClient.deployWorkflow exDeployEnv (.inl "order.bpmn") false).2 =
    [RemoteCall.listWorkflows] from rfl] at hc
  exact List.cons_ne_nil _ _ hc

/-- C3 (amended): with `redeploy = false` and every derived process id
already deployed, `deployWorkflow` returns the sentinel and issues no
remote deploy call — but it does issue exactly one remote call, the
`listWorkflows` query for the deployed ids. -/
theorem C3_no_deploy_one_list_call (env : DeployEnv)
    (workflow : Sum String (List String))
    (h : ∀ wf ∈ workflowArgToList workflow,
      (env.listWorkflowsResponse.workflows.map (fun m => m.bpmnProcessId)).contains
        (env.getProcessId (env.readFile wf)) = true) :
    ZBClient.deployWorkflow env workflow false =
      ({ key := -1, workflows := [] }, [RemoteCall.listWorkflows]) :=
  deployWorkflow_all_deployed env workflow h

/-- witness for the amended C3 at a concrete input. -/
theorem C3_no_deploy_one_list_call_witness :
    ZBClient.deployWorkflow exDeployEnv (.inr ["order.bpmn", "order2.bpmn"]) false =
      ({ key := -1, workflows := [] }, [RemoteCall.listWorkflows]) :=
  C3_no_deploy_one_list_call exDeployEnv (.inr ["order.bpmn", "order2.bpmn"])
    (by decide)

/-- C4: `setVariables` serializes an object-typed `variables` field to
its `JSON.stringify` text before transmission, and passes a string-typed
`variables` field through with the whole request unchanged. -/
theorem C4_setVariables_serialization (request : SetVariablesRequest) :
    (jsTypeofObject request.variables = true →
      (ZBClient.setVariables request).variables =
        .vstr (jsonStringify request.variables)) ∧
    (∀ s, request.variables = .vstr s → ZBClient.setVariables request = request) := by
  constructor
  · intro h
    simp [ZBClient.setVariables, h]
  · intro s hs
    simp [ZBClient.setVariables, hs, jsTypeofObject]

/-- witness for C4: an object payload is stringified, a string payload
passes through unchanged. -/
theorem C4_setVariables_serialization_witness :
    (ZBClient.setVariables
      { elementInstanceKey := "123", «variables» := .vobj [("a", .vnum 1)]
        localScope := false }).variables = .vstr "\x7b\"a\":1\x7d" ∧
    ZBClient.setVariables
      { elementInstanceKey := "123", «variables» := .vstr "\x7b\x7d"
        localScope := false } =
      { elementInstanceKey := "123", «variables» := .vstr "\x7b\x7d"
        localScope := false } :=
  ⟨((C4_setVariables_serialization
      { elementInstanceKey := "123", «variables» := .vobj [("a", .vnum 1)]
        localScope := false }).1 rfl).trans rfl,
   (C4_setVariables_serialization
      { elementInstanceKey := "123", «variables» := .vstr "\x7b\x7d"
        localScope := false }).2 "\x7b\x7d" rfl⟩

/-- C5: `getWorkflow` defaults an unset version to the sentinel -1 only
when the request carries a `bpmnProcessId`; a key-identified request
(no `bpmnProcessId`) is transmitted entirely unchanged. -/
theorem C5_version_default_only_for_process_id (request : GetWorkflowRequest) :
    (request.bpmnProcessId.isSome = true → request.version = none →
      (ZBClient.getWorkflow request).version = some (-1)) ∧
    (request.bpmnProcessId = none → ZBClient.getWorkflow request = request) := by
  constructor
  · intro hid hv
    simp [ZBClient.getWorkflow, ZBClient.hasBpmnProcessId, hid, hv, jsNumOr]
  · intro hid
    simp [ZBClient.getWorkflow, ZBClient.hasBpmnProcessId, hid]

/-- witness for C5: a process-id request with unset version gets -1, a
key-based request stays unchanged. -/
theorem C5_version_default_only_for_process_id_witness :
    (ZBClient.getWorkflow
      { bpmnProcessId := some "proc-a", workflowKey := none
        version := none }).version = some (-1) ∧
    ZBClient.getWorkflow
      { bpmnProcessId := none, workflowKey := some "55", version := none } =
      { bpmnProcessId := none, workflowKey := some "55", version := none } :=
  ⟨(C5_version_default_only_for_process_id
      { bpmnProcessId := some "proc-a", workflowKey := none
        version := none }).1 rfl rfl,
   (C5_version_default_only_for_process_id
      { bpmnProcessId := none, workflowKey := some "55", version := none }).2 rfl⟩

/-- C6: at construction, the default port `:26500` is appended to the
broker address exactly when the address contains no `:` separator (the
source's port check); an address that already carries one is stored
unchanged, and the constructor stores the normalized address. -/
theorem C6_default_port (a : String) (h : a ≠ "") :
    (a.data.contains ':' = false → normalizeBrokerAddress a = a ++ ":26500") ∧
    (a.data.contains ':' = true → normalizeBrokerAddress a = a) ∧
    ∀ env opt, ZBClient.construct env a opt =
      .ok { brokerAddress := normalizeBrokerAddress a
            loglevel := resolveLoglevel env opt } := by
  refine ⟨fun hc => ?_, fun hc => ?_, fun env opt => ?_⟩
  · simp at hc
    simp [normalizeBrokerAddress, hc]
  · simp at hc
    simp [normalizeBrokerAddress, hc]
  · simp [ZBClient.construct, h]

/-- witness for C6 at the spec's two example addresses. -/
theorem C6_default_port_witness :
    normalizeBrokerAddress "localhost" = "localhost:26500" ∧
    normalizeBrokerAddress "x.zeebe.camunda.io:443" = "x.zeebe.camunda.io:443" ∧
    ZBClient.construct none "localhost" none =
      .ok { brokerAddress := "localhost:26500", loglevel := "INFO" } :=
  ⟨(C6_default_port "localhost" (by decide)).1 (by decide),
   (C6_default_port "x.zeebe.camunda.io:443" (by decide)).2.1 (by decide),
   ((C6_default_port "localhost" (by decide)).2.2 none none).trans (by rfl)⟩

/-- C7: the resolved log level is the first set value among the
environment override, the constructor option and the default "INFO"
(values of these settings are log-level names, never empty strings). -/
theorem C7_loglevel_precedence (env opt : Option String)
    (henv : env ≠ some "") (hopt : opt ≠ some "") :
    (∀ e, env = some e → resolveLoglevel env opt = e) ∧
    (env = none → ∀ o, opt = some o → resolveLoglevel env opt = o) ∧
    (env = none → opt = none → resolveLoglevel env opt = "INFO") := by
  refine ⟨fun e he => ?_, fun he o ho => ?_, fun he ho => ?_⟩
  · subst he
    have : e ≠ "" := fun h => henv (by rw [h])
    simp [resolveLoglevel, jsStrOr, this]
  · subst he; subst ho
    have : o ≠ "" := fun h => hopt (by rw [h])
    simp [resolveLoglevel, jsStrOr, this]
  · subst he; subst ho
    simp [resolveLoglevel, jsStrOr]

/-- witness for C7: all three precedence positions at concrete values. -/
theorem C7_loglevel_precedence_witness :
    resolveLoglevel (some "DEBUG") (some "ERROR") = "DEBUG" ∧
    resolveLoglevel none (some "ERROR") = "ERROR" ∧
    resolveLoglevel none none = "INFO" :=
  ⟨(C7_loglevel_precedence (some "DEBUG") (some "ERROR") (by simp) (by simp)).1
      "DEBUG" rfl,
   (C7_loglevel_precedence none (some "ERROR") (by simp) (by simp)).2.1
      rfl "ERROR" rfl,
   (C7_loglevel_precedence none none (by simp) (by simp)).2.2 rfl rfl⟩

/-- helper: `closing` is never unset — it is preserved by `close` and by
`createWorker` — so it stays true in every state subsequent to a close. -/
theorem closing_persists (s : ClientState) (hs : s.closing = true)
    (id taskType : String) :
    (ZBClient.close s).closing = true ∧
    (ZBClient.createWorkerState s id taskType).closing = true := by
  constructor
  · unfold ZBClient.close
    split <;> simp [hs]
  · unfold ZBClient.createWorkerState ZBClient.createWorker
    simp [hs]

/-- C8: once `close()` has run on a client (any state satisfying the
reachable-state invariant that a recorded close promise implies
`closing`), every subsequent `createWorker` call throws a synchronous
construction error and leaves the worker list untouched; and `closing`
remains set across further `close` and `createWorker` calls, so this
holds for every subsequent call. -/
theorem C8_createWorker_after_close (s : ClientState)
    (hinv : s.closePromiseSet = true → s.closing = true) (id taskType : String) :
    (ZBClient.close s).closing = true ∧
    (∀ s2 : ClientState, s2.closing = true →
      (∃ e, ZBClient.createWorker s2 id taskType = .error e) ∧
      ZBClient.createWorkerState s2 id taskType = s2) ∧
    (∀ s2 : ClientState, s2.closing = true →
      (ZBClient.close s2).closing = true ∧
      (ZBClient.createWorkerState s2 id taskType).closing = true) := by
  refine ⟨?_, fun s2 h2 => ⟨?_, ?_⟩, fun s2 h2 => closing_persists s2 h2 id taskType⟩
  · unfold ZBClient.close
    split
    · exact hinv (by assumption)
    · rfl
  · exact ⟨.clientClosing "Client is closing. No worker creation allowed!",
      by simp [ZBClient.createWorker, h2]⟩
  · unfold ZBClient.createWorkerState ZBClient.createWorker
    simp [h2]

/-- witness for C8: a fresh client that is closed once rejects worker
creation and keeps its (empty) worker list. -/
theorem C8_createWorker_after_close_witness :
    (ZBClient.close ClientState.initial).closing = true ∧
    (∃ e, ZBClient.createWorker (ZBClient.close ClientState.initial)
      "worker-1" "payment" = .error e) ∧
    ZBClient.createWorkerState (ZBClient.close ClientState.initial)
      "worker-1" "payment" = ZBClient.close ClientState.initial := by
  have h := C8_createWorker_after_close ClientState.initial (by intro h; cases h)
    "worker-1" "payment"
  have hclosed : (ZBClient.close ClientState.initial).closing = true := h.1
  exact ⟨h.1, (h.2.1 _ hclosed).1, (h.2.1 _ hclosed).2⟩

/-- C9: `setVariables` and `getWorkflow` mutate the caller's request
object in place: reading back through the caller's reference after the
call observes the stringified variables (no longer an object value), and
the defaulted version -1, respectively. -/
theorem C9_in_place_mutation (h : Heap SetVariablesRequest) (r : Nat)
    (hg : Heap GetWorkflowRequest) (rg : Nat) :
    (jsTypeofObject (h r).variables = true →
      (setVariablesOnHeap h r r).variables =
        .vstr (jsonStringify (h r).variables) ∧
      jsTypeofObject (setVariablesOnHeap h r r).variables = false) ∧
    ((hg rg).bpmnProcessId.isSome = true → (hg rg).version = none →
      (getWorkflowOnHeap hg rg rg).version = some (-1)) := by
  constructor
  · intro hobj
    have hread : setVariablesOnHeap h r r = ZBClient.setVariables (h r) := by
      simp [setVariablesOnHeap, heapUpdate]
    rw [hread]
    unfold ZBClient.setVariables
    rw [if_pos hobj]
    exact ⟨rfl, rfl⟩
  · intro hid hv
    have hread : getWorkflowOnHeap hg rg rg = ZBClient.getWorkflow (hg rg) := by
      simp [getWorkflowOnHeap, heapUpdate]
    rw [hread]
    simp [ZBClient.getWorkflow, ZBClient.hasBpmnProcessId, hid, hv, jsNumOr]

/-- witness for C9 on concrete one-object stores. -/
theorem C9_in_place_mutation_witness :
    (setVariablesOnHeap
      (fun _ => { elementInstanceKey := "9", «variables» := .vobj [("b", .vbool true)]
                  localScope := true }) 0 0).variables =
      .vstr "\x7b\"b\":true\x7d" ∧
    (getWorkflowOnHeap
      (fun _ => { bpmnProcessId := some "p", workflowKey := none, version := none })
      0 0).version = some (-1) := by
  have h := C9_in_place_mutation
    (fun _ => { elementInstanceKey := "9", «variables» := .vobj [("b", .vbool true)]
                localScope := true }) 0
    (fun _ => { bpmnProcessId := some "p", workflowKey := none, version := none }) 0
  exact ⟨((h.1 rfl).1).trans rfl, h.2 rfl rfl⟩

/-- C10: `createWorkflowInstance` called with an explicit version 0
transmits version -1 — the `version = version || -1` default applies by
falsy coercion, so an explicit 0 is treated exactly like an unset
version. -/
theorem C10_version_zero_coerced (bpmnProcessId : String) (vars : JsValue) :
    (ZBClient.createWorkflowInstance bpmnProcessId vars (some 0)).version = -1 ∧
    (ZBClient.createWorkflowInstance bpmnProcessId vars (some 0)).version =
      (ZBClient.createWorkflowInstance bpmnProcessId vars none).version := by
  constructor
  · simp only [ZBClient.createWorkflowInstance, jsNumOr, stringifyVariablesCWI]
    split <;> rfl
  · simp [ZBClient.createWorkflowInstance, jsNumOr, stringifyVariablesCWI]

end ZeebeNode
